import Mathlib

/-!
Shallow embedding of the HTMLER `improved_architecture` client core:
the rate limiter (`utils/rate_limiter.py`), the TTL cache (`utils/cache.py`),
the API service (`services/api_service.py`) and the controller
(`controllers/main_controller.py`).  Time is modelled by `ℚ` (the Python code
uses `time.monotonic()` / `time.time()` floats); `asyncio.sleep` is idealised
as advancing the clock by exactly the requested amount.  Payload bodies are
opaque to the client — only identity and truthiness are ever inspected — so
nested collections carry string elements.
-/

/-- Python values as far as the client inspects them.  The client treats
response bodies as opaque structured payloads: the only operations applied to
a payload are identity and Python truthiness, so collection elements are
flattened to strings. -/
inductive PyVal where
  | pyNone : PyVal
  | pyBool (b : Bool) : PyVal
  | pyInt (n : Int) : PyVal
  | pyStr (s : String) : PyVal
  | pyList (elems : List String) : PyVal
  | pyDict (entries : List (String × String)) : PyVal
  deriving DecidableEq, Repr

/-- Python truthiness of a value (`bool(v)`): `None`, `False`, `0`, `""` and
empty collections are falsy. -/
def PyVal.truthy : PyVal → Bool
  | .pyNone => false
  | .pyBool b => b
  | .pyInt n => decide (n ≠ 0)
  | .pyStr s => decide (s ≠ "")
  | .pyList elems => decide (elems ≠ [])
  | .pyDict entries => decide (entries ≠ [])

/-! ## RateLimiter (src/improved_architecture/utils/rate_limiter.py) -/

/-- State of `RateLimiter`: `min_interval` and `_last` (last dispatch time,
`time.monotonic()`). -/
structure RateLimiter where
  min_interval : ℚ
  last : ℚ
  deriving DecidableEq, Repr

/-- `RateLimiter.__init__`: `min_interval = 1.0 / rate_per_second if
rate_per_second > 0 else 0`, `_last = 0.0`. -/
def RateLimiter.init (rate_per_second : ℚ) : RateLimiter :=
  { min_interval := if rate_per_second > 0 then 1 / rate_per_second else 0
    last := 0 }

/-- `RateLimiter.acquire`, entered at monotonic time `now` (the lock admits
one caller at a time, so `now` is read after the previous caller committed).
Returns the dispatch time (the moment `acquire` returns, which the code also
commits as the new `_last`) and the new state.  `asyncio.sleep wait` is
idealised as advancing the clock by exactly `wait`. -/
def RateLimiter.acquire (s : RateLimiter) (now : ℚ) : ℚ × RateLimiter :=
  let wait := s.min_interval - (now - s.last)
  if wait > 0 then
    (now + wait, { s with last := now + wait })
  else
    (now, { s with last := now })

/-- Run a sequence of `acquire` calls, the i-th entering the critical section
at clock time `ts[i]`, and collect the dispatch times. -/
def runAcquires (s : RateLimiter) : List ℚ → List ℚ
  | [] => []
  | t :: ts =>
    let r := s.acquire t
    r.1 :: runAcquires r.2 ts

/-! ## CacheManager (src/improved_architecture/utils/cache.py) -/

/-- The cache `_store`: a Python dict from key to `(expires, value)`,
modelled as a function (dicts hold at most one binding per key). -/
def CacheStore := String → Option (ℚ × PyVal)

/-- `CacheManager.get` at wall-clock time `now` (`time.time()`): absent key →
`None`; `expires < now` → pop the entry and return `None`; otherwise return
the value.  Returns the result together with the possibly-mutated store. -/
def CacheManager.get (store : CacheStore) (key : String) (now : ℚ) :
    Option PyVal × CacheStore :=
  match store key with
  | none => (none, store)
  | some (expires, value) =>
    if expires < now then
      (none, fun k => if k = key then none else store k)
    else
      (some value, store)

/-- `CacheManager.set`: `_store[key] = (time.time() + ttl, value)`,
overwriting unconditionally. -/
def CacheManager.set (store : CacheStore) (key : String) (value : PyVal)
    (ttl : ℚ) (now : ℚ) : CacheStore :=
  fun k => if k = key then some (now + ttl, value) else store k

/-! ## API service (src/improved_architecture/services/api_service.py) -/

/-- `APIErrorType` enum. -/
inductive APIErrorType where
  | NETWORK_ERROR : APIErrorType
  | AUTHENTICATION_ERROR : APIErrorType
  | RATE_LIMIT_ERROR : APIErrorType
  | DATA_ERROR : APIErrorType
  | TIMEOUT_ERROR : APIErrorType
  | UNKNOWN_ERROR : APIErrorType
  deriving DecidableEq, Repr

/-- The `APIResponse` dataclass.  `data` is `Optional[Dict]` in Python;
absence (`None`) is the value `PyVal.pyNone`, exactly as in Python where the
field holds the object `None`. -/
structure APIResponse where
  success : Bool
  data : PyVal := .pyNone
  error : Option String := none
  error_type : Option APIErrorType := none
  status_code : Option Nat := none
  cached : Bool := false
  request_id : Option String := none
  deriving DecidableEq, Repr

/-- Outcome of one transport dispatch (`self._session.request(...)` plus body
reading), supplied as an oracle: a transport timeout (`asyncio.TimeoutError`),
a transport failure (`aiohttp.ClientError`), any other unexpected exception,
or an HTTP response with its status, the parse result of its body
(`none` = `json.JSONDecodeError`) and its body text. -/
inductive NetOutcome where
  | timeoutErr : NetOutcome
  | clientErr (msg : String) : NetOutcome
  | otherErr (msg : String) : NetOutcome
  | httpResponse (status : Nat) (parsed : Option PyVal) (bodyText : String) : NetOutcome
  deriving DecidableEq, Repr

/-- Insert a pair into a list sorted by lexicographic tuple order. -/
def insertPair (x : String × String) :
    List (String × String) → List (String × String)
  | [] => [x]
  | y :: ys =>
    if x.1.data < y.1.data ∨ (x.1 = y.1 ∧ ¬ y.2.data < x.2.data) then
      x :: y :: ys
    else y :: insertPair x ys

/-- `sorted(params.items())`: Python sorts the `(key, value)` tuples
lexicographically (dict keys are distinct, so the comparator is a total order
with no ties and any sorting algorithm yields Python's result). -/
def sortedParams (params : List (String × String)) : List (String × String) :=
  params.foldr insertPair []

/-- `UnusualWhalesAPIService._generate_cache_key`: join the endpoint and the
sorted `k=v` pairs with `"|"`.  `params` is `Optional[Dict]`; `if params:` is
false for `None` and for an empty dict. -/
def generateCacheKey (endpoint : String) (params : Option (List (String × String))) : String :=
  let keyParts := endpoint :: (match params with
    | none => []
    | some ps =>
      if ps = [] then []
      else (sortedParams ps).map (fun kv => kv.1 ++ "=" ++ kv.2))
  String.intercalate "|" keyParts

/-- `str.upper()` for the ASCII method names used by the service (Python's
`upper()` agrees with per-character upper-casing on ASCII). -/
def pyUpper (s : String) : String := ⟨s.data.map Char.toUpper⟩

/-- `UnusualWhalesAPIService._process_response`. -/
def processResponse (status : Nat) (parsed : Option PyVal) (bodyText : String)
    (request_id : String) : APIResponse :=
  if status = 200 then
    match parsed with
    | some d =>
      { success := true, data := d, status_code := some status,
        request_id := some request_id }
    | none =>
      { success := false, error := some "Invalid JSON response",
        error_type := some .DATA_ERROR, status_code := some status,
        request_id := some request_id }
  else if status = 401 then
    { success := false, error := some "Authentication failed - check API token",
      error_type := some .AUTHENTICATION_ERROR, status_code := some status,
      request_id := some request_id }
  else if status = 429 then
    { success := false, error := some "Rate limit exceeded",
      error_type := some .RATE_LIMIT_ERROR, status_code := some status,
      request_id := some request_id }
  else
    { success := false,
      error := some ("API error " ++ toString status ++ ": " ++ bodyText),
      error_type := some .DATA_ERROR, status_code := some status,
      request_id := some request_id }

/-- Observable side effects of one `_make_request` call: whether
`rate_limiter.acquire()` was awaited and whether a request was dispatched to
the transport. -/
structure RequestEffects where
  acquired : Bool
  dispatched : Bool
  deriving DecidableEq, Repr

/-- The part of `UnusualWhalesAPIService._make_request` after the cache check:
acquire the rate limiter, dispatch, classify (`try`/`except` arms), and cache
a successful, truthy, non-bypassed GET payload under
`ttl = cache_ttl or config.cache.default_ttl` (Python `or`: `None` and `0`
both fall back to the default). -/
def dispatchRequest (method endpoint : String)
    (params : Option (List (String × String)))
    (cache_ttl : Option ℚ) (bypass_cache : Bool) (default_ttl : ℚ)
    (store : CacheStore) (now : ℚ) (net : NetOutcome) (request_id : String) :
    APIResponse × CacheStore × RequestEffects :=
  match net with
  | .timeoutErr =>
    ({ success := false, error := some "Request timeout",
       error_type := some .TIMEOUT_ERROR, request_id := some request_id },
     store, { acquired := true, dispatched := true })
  | .clientErr msg =>
    ({ success := false, error := some ("Network error: " ++ msg),
       error_type := some .NETWORK_ERROR, request_id := some request_id },
     store, { acquired := true, dispatched := true })
  | .otherErr msg =>
    ({ success := false, error := some ("Unexpected error: " ++ msg),
       error_type := some .UNKNOWN_ERROR, request_id := some request_id },
     store, { acquired := true, dispatched := true })
  | .httpResponse status parsed bodyText =>
    let responseData := processResponse status parsed bodyText request_id
    let ttl := match cache_ttl with
      | some t => if t = 0 then default_ttl else t
      | none => default_ttl
    let store' :=
      if pyUpper method = "GET" ∧ responseData.success = true ∧
          responseData.data.truthy = true ∧ bypass_cache = false then
        CacheManager.set store (generateCacheKey endpoint params)
          responseData.data ttl now
      else store
    (responseData, store', { acquired := true, dispatched := true })

/-- `UnusualWhalesAPIService._make_request`.  For a non-bypassed GET it first
consults the cache; `if cached_response:` is Python truthiness, so both a
miss (`None`) and a falsy cached value fall through to the network path. -/
def makeRequest (method endpoint : String)
    (params : Option (List (String × String)))
    (cache_ttl : Option ℚ) (bypass_cache : Bool) (default_ttl : ℚ)
    (store : CacheStore) (now : ℚ) (net : NetOutcome) (request_id : String) :
    APIResponse × CacheStore × RequestEffects :=
  if pyUpper method = "GET" ∧ bypass_cache = false then
    match CacheManager.get store (generateCacheKey endpoint params) now with
    | (some v, store₁) =>
      if v.truthy then
        ({ success := true, data := v, cached := true,
           request_id := some request_id },
         store₁, { acquired := false, dispatched := false })
      else
        dispatchRequest method endpoint params cache_ttl bypass_cache
          default_ttl store₁ now net request_id
    | (none, store₁) =>
      dispatchRequest method endpoint params cache_ttl bypass_cache
        default_ttl store₁ now net request_id
  else
    dispatchRequest method endpoint params cache_ttl bypass_cache
      default_ttl store now net request_id

/-- Outcome of awaiting one `asyncio` task: a normal return or a raised
exception (with its message). -/
inductive TaskOutcome where
  | finished (r : APIResponse) : TaskOutcome
  | raised (msg : String) : TaskOutcome
  deriving DecidableEq, Repr

/-- `UnusualWhalesAPIService.get_multiple_stock_data`: one task per ticker;
awaiting a task that raised is downgraded to an `UNKNOWN_ERROR` response for
that ticker only. -/
def getMultipleStockData (tickers : List String) (run : String → TaskOutcome) :
    List (String × APIResponse) :=
  tickers.map (fun t =>
    match run t with
    | .finished r => (t, r)
    | .raised msg =>
      (t, { success := false, error := some msg,
            error_type := some .UNKNOWN_ERROR }))

/-! ## Controller (src/improved_architecture/controllers/main_controller.py) -/

/-- `AnalysisStatus` enum. -/
inductive AnalysisStatus where
  | IDLE : AnalysisStatus
  | RUNNING : AnalysisStatus
  | COMPLETED : AnalysisStatus
  | ERROR : AnalysisStatus
  | CANCELLED : AnalysisStatus
  deriving DecidableEq, Repr

/-- The `AnalysisProgress` dataclass (the `estimated_completion` field is
never assigned in the source and is omitted). -/
structure AnalysisProgress where
  status : AnalysisStatus
  current_step : String
  progress_percent : ℚ
  total_steps : Nat
  completed_steps : Nat
  error_message : Option String := none
  start_time : Option ℚ := none
  deriving DecidableEq, Repr

/-- `MainController` state relevant to the claims: `_active_analyses` (a dict
from ticker to task, modelled by its key set as a membership function) and
`_analysis_progress`. -/
structure ControllerState where
  active_analyses : String → Bool
  analysis_progress : String → Option AnalysisProgress

/-- The progress record created at the top of `analyze_ticker`. -/
def initialProgress (now : ℚ) : AnalysisProgress :=
  { status := .RUNNING, current_step := "Initializing analysis",
    progress_percent := 0, total_steps := 6, completed_steps := 0,
    start_time := some now }

/-- The synchronous prefix of `MainController.analyze_ticker` (everything
before the first `await`): upper-case the ticker; if it is already in
`_active_analyses`, return `False` at once, touching nothing; otherwise store
the `RUNNING` progress record, create the task and register it. -/
def analyzeTickerStart (st : ControllerState) (ticker : String) (now : ℚ) :
    Option ControllerState :=
  let t := pyUpper ticker
  if st.active_analyses t then
    none
  else
    some { active_analyses := fun k => if k = t then true else st.active_analyses k
           analysis_progress := fun k =>
             if k = t then some (initialProgress now) else st.analysis_progress k }

/-- How the awaited analysis task terminated: a normal return (the pipeline
returns `True`), `asyncio.CancelledError`, or any other exception with its
message. -/
inductive RunOutcome where
  | completed (result : Bool) : RunOutcome
  | cancelled : RunOutcome
  | errored (msg : String) : RunOutcome
  deriving DecidableEq, Repr

/-- The tail of `MainController.analyze_ticker` after the task terminates:
the `try`/`except`/`finally` updates the progress record per outcome and the
`finally` block always deletes the registry entry.  Returns the boolean
result of `analyze_ticker` and the new state. -/
def analyzeTickerFinish (st : ControllerState) (ticker : String)
    (o : RunOutcome) : Bool × ControllerState :=
  let t := pyUpper ticker
  let upd : AnalysisProgress → AnalysisProgress := fun p =>
    match o with
    | .completed _ =>
      { p with status := .COMPLETED, progress_percent := 100,
               completed_steps := p.total_steps,
               current_step := "Analysis completed" }
    | .cancelled =>
      { p with status := .CANCELLED, current_step := "Analysis cancelled" }
    | .errored msg =>
      { p with status := .ERROR, error_message := some msg,
               current_step := "Analysis failed" }
  (match o with
   | .completed b => b
   | _ => false,
   { active_analyses := fun k => if k = t then false else st.active_analyses k
     analysis_progress := fun k =>
       if k = t then (st.analysis_progress k).map upd
       else st.analysis_progress k })

/-- The inputs `MainController._perform_ticker_analysis` hands to
`analysis_service.analyze_ticker` (step 5): each dataset is
`x.data if x.success else None`. -/
structure AnalysisInputs where
  ticker : String
  stock_info : PyVal
  earnings_data : PyVal
  options_flow : PyVal
  insider_trades : PyVal
  deriving DecidableEq, Repr

/-- Python `f"{x}"` on an `Optional[str]`. -/
def formatOptStr : Option String → String
  | none => "None"
  | some s => s

/-- The data flow of `MainController._perform_ticker_analysis`, with the four
fetch results supplied as oracles in program order: a non-success mandatory
stock-info fetch raises
`ApplicationError(f"Failed to get stock info: {stock_info.error}")` (modelled
as `Except.error`); the three enrichment fetches are never checked and are
passed to the analysis step as their data or `None`. -/
def performTickerAnalysis (ticker : String)
    (stock_info earnings_data options_flow insider_trades : APIResponse) :
    Except String AnalysisInputs :=
  if stock_info.success = false then
    .error ("Failed to get stock info: " ++ formatOptStr stock_info.error)
  else
    .ok { ticker := ticker
          stock_info := if stock_info.success then stock_info.data else .pyNone
          earnings_data := if earnings_data.success then earnings_data.data else .pyNone
          options_flow := if options_flow.success then options_flow.data else .pyNone
          insider_trades := if insider_trades.success then insider_trades.data else .pyNone }

/-- The successive states of the shared progress record emitted by
`_perform_ticker_analysis` during a run in which every step executes, in
program order.  Each step-`i` record is emitted immediately before the step's
work, with the hard-coded `progress_percent` literals of the source
(16.7, 33.3, 50.0, 66.7, 83.3, 100.0). -/
def pipelineEmissions (p0 : AnalysisProgress) : List AnalysisProgress :=
  let p1 := { p0 with current_step := "Fetching stock information",
                      completed_steps := 1, progress_percent := 167/10 }
  let p2 := { p1 with current_step := "Fetching earnings data",
                      completed_steps := 2, progress_percent := 333/10 }
  let p3 := { p2 with current_step := "Fetching options flow",
                      completed_steps := 3, progress_percent := 50 }
  let p4 := { p3 with current_step := "Fetching insider trades",
                      completed_steps := 4, progress_percent := 667/10 }
  let p5 := { p4 with current_step := "Performing analysis",
                      completed_steps := 5, progress_percent := 833/10 }
  let p6 := { p5 with current_step := "Saving results",
                      completed_steps := 6, progress_percent := 100 }
  [p1, p2, p3, p4, p5, p6]

/-- All progress records emitted during a successful `analyze_ticker` run:
the initial record, the six pipeline records, and the final `COMPLETED`
record. -/
def analyzeTickerEmissions (now : ℚ) : List AnalysisProgress :=
  let p0 := initialProgress now
  let steps := pipelineEmissions p0
  let p6 := { p0 with current_step := "Saving results",
                      completed_steps := 6, progress_percent := 100 }
  p0 :: steps ++
    [{ p6 with status := .COMPLETED, progress_percent := 100,
               completed_steps := 6, current_step := "Analysis completed" }]

/-- `MainController.batch_analyze_watchlist`, result-aggregation shape: one
task per ticker (`analyze_with_semaphore`); `run t = some b` models the task
returning `(t, b)`, `run t = none` models it raising (gathered with
`return_exceptions=True`); the aggregation loop skips (`continue`) every
exception result and records the rest. -/
def batchAnalyzeWatchlist (tickers : List String)
    (run : String → Option Bool) : List (String × Bool) :=
  tickers.filterMap (fun t => (run t).map (fun b => (t, b)))

/-! ## Theorems -/

theorem chain_imp_chain' {α : Type} {R : α → α → Prop} {a : α} :
    ∀ {l : List α}, List.Chain R a l → List.Chain' R l
  | [], _ => trivial
  | _ :: _, List.Chain.cons _ h => h

theorem RateLimiter.acquire_state (s : RateLimiter) (now : ℚ) :
    (s.acquire now).2.last = (s.acquire now).1 ∧
    (s.acquire now).2.min_interval = s.min_interval := by
  simp only [RateLimiter.acquire]
  split <;> simp

theorem RateLimiter.acquire_gap (s : RateLimiter) (now : ℚ) :
    s.last + s.min_interval ≤ (s.acquire now).1 := by
  simp only [RateLimiter.acquire]
  split <;> rename_i h <;> simp only <;> linarith

theorem runAcquires_chain (mi : ℚ) :
    ∀ (ts : List ℚ) (s : RateLimiter), s.min_interval = mi →
      List.Chain (fun a b => a + mi ≤ b) s.last (runAcquires s ts)
  | [], _, _ => List.Chain.nil
  | t :: ts, s, h => by
    simp only [runAcquires]
    refine List.Chain.cons ?_ ?_
    · have hg := RateLimiter.acquire_gap s t
      rw [h] at hg
      exact hg
    · have hs := RateLimiter.acquire_state s t
      have hrec := runAcquires_chain mi ts (s.acquire t).2 (by rw [hs.2, h])
      rwa [hs.1] at hrec

/-- C1: with `rate > 0`, any two successive dispatch times produced by a
sequence of `acquire()` calls are at least `1/rate` apart; with `rate ≤ 0`
the minimum interval is `0`, and an `acquire` entered at a clock reading not
before the last dispatch returns immediately (no sleep), dispatching at
`now`. -/
theorem rateLimiter_min_gap (rate : ℚ) (ts : List ℚ) (s : RateLimiter) (now : ℚ) :
    (0 < rate →
      List.Chain' (fun a b => a + 1 / rate ≤ b)
        (runAcquires (RateLimiter.init rate) ts)) ∧
    (rate ≤ 0 → (RateLimiter.init rate).min_interval = 0) ∧
    (s.min_interval = 0 → s.last ≤ now →
      s.acquire now = (now, { s with last := now })) := by
  refine ⟨fun hr => ?_, fun hr => ?_, fun hm hl => ?_⟩
  · refine chain_imp_chain' (runAcquires_chain (1 / rate) ts (RateLimiter.init rate) ?_)
    simp [RateLimiter.init, hr]
  · simp only [RateLimiter.init]
    rw [if_neg (by linarith)]
  · simp only [RateLimiter.acquire, hm]
    rw [if_neg (by linarith)]

/-- Witness for C1 at `rate = 2`, call times `[0, 10, 10]`: the dispatch
times are `[1/2, 10, 21/2]`, successive gaps both at least `1/2`; and a
limiter with `min_interval = 0` dispatches immediately. -/
theorem rateLimiter_min_gap_witness :
    List.Chain' (fun a b => a + 1 / (2 : ℚ) ≤ b)
      (runAcquires (RateLimiter.init 2) [0, 10, 10]) ∧
    RateLimiter.acquire { min_interval := 0, last := 5 } 7 =
      (7, { min_interval := 0, last := 7 }) :=
  ⟨(rateLimiter_min_gap 2 [0, 10, 10] (RateLimiter.init 2) 0).1 (by norm_num),
   (rateLimiter_min_gap 2 [] { min_interval := 0, last := 5 } 7).2.2 rfl
     (by norm_num)⟩

/-- C5 counterexample: `set("k", 1, ttl=10)` at time 0 gives
`expiresAt = 10`, and `get("k")` at `now = 10` still returns the value, even
though `now < expiresAt` is false — the code expires strictly after
`expiresAt` (`expires < time.time()`), not at it. -/
theorem cacheManager_boundary_counterexample :
    (CacheManager.get (CacheManager.set (fun _ => none) "k" (.pyInt 1) 10 0)
        "k" 10).1 = some (.pyInt 1) ∧
    ¬ ((10 : ℚ) < 0 + 10) := by
  constructor
  · simp [CacheManager.get, CacheManager.set]
  · norm_num

/-- C5 amended: `get(key)` immediately after `set(key, value, ttl)` (with
`ttl ≥ 0`) returns the value; `set` stores `expiresAt = now + ttl`,
overwriting unconditionally; an entry is visible to readers while
`now ≤ expiresAt` (not only while `now < expiresAt`); once `now > expiresAt`,
`get` returns absent and removes the entry. -/
theorem cacheManager_ttl (store : CacheStore) (k : String) (v : PyVal)
    (ttl now now' exp : ℚ) (w : PyVal) :
    (0 ≤ ttl →
      (CacheManager.get (CacheManager.set store k v ttl now) k now).1 = some v) ∧
    CacheManager.set store k v ttl now k = some (now + ttl, v) ∧
    (store k = some (exp, w) →
      (now' ≤ exp → (CacheManager.get store k now').1 = some w) ∧
      (exp < now' →
        (CacheManager.get store k now').1 = none ∧
        (CacheManager.get store k now').2 k = none)) := by
  refine ⟨fun httl => ?_, by simp [CacheManager.set], fun hk => ⟨fun hle => ?_, fun hlt => ?_⟩⟩
  · have hs : CacheManager.set store k v ttl now k = some (now + ttl, v) := by
      simp [CacheManager.set]
    simp only [CacheManager.get, hs]
    rw [if_neg (by linarith)]
  · simp only [CacheManager.get, hk]
    rw [if_neg (by linarith)]
  · simp only [CacheManager.get, hk]
    rw [if_pos hlt]
    simp

/-- Witness for C5 at a concrete store: a fresh `set` is immediately
readable; the stored expiry is `now + ttl`; an entry with `expiresAt = 5`
read at `now = 9` is absent and removed. -/
theorem cacheManager_ttl_witness :
    (CacheManager.get
        (CacheManager.set (fun _ => none) "a" (.pyInt 2) 3 1) "a" 1).1 =
      some (.pyInt 2) ∧
    ((CacheManager.get (fun k => if k = "a" then some (5, .pyStr "x") else none)
        "a" 9).1 = none ∧
      (CacheManager.get (fun k => if k = "a" then some (5, .pyStr "x") else none)
        "a" 9).2 "a" = none) :=
  ⟨(cacheManager_ttl (fun _ => none) "a" (.pyInt 2) 3 1 1 5 (.pyStr "x")).1
      (by norm_num),
   ((cacheManager_ttl (fun k => if k = "a" then some (5, .pyStr "x") else none)
        "a" (.pyStr "x") 0 0 9 5 (.pyStr "x")).2.2 (by simp)).2 (by norm_num)⟩

/-- Invariant of the service cache: every stored value is truthy (the only
cache write, in `_make_request`, is guarded by `response_data.data`). -/
def StoreTruthy (store : CacheStore) : Prop :=
  ∀ k e v, store k = some (e, v) → v.truthy = true

theorem StoreTruthy.get {store : CacheStore} (key : String) (now : ℚ)
    (h : StoreTruthy store) : StoreTruthy (CacheManager.get store key now).2 := by
  intro k e v hk
  unfold CacheManager.get at hk
  split at hk
  · exact h k e v hk
  · split at hk
    · simp only at hk
      split at hk
      · cases hk
      · exact h k e v hk
    · exact h k e v hk

theorem StoreTruthy.set {store : CacheStore} (key : String) (value : PyVal)
    (ttl now : ℚ) (h : StoreTruthy store) (hv : value.truthy = true) :
    StoreTruthy (CacheManager.set store key value ttl now) := by
  intro k e v hk
  simp only [CacheManager.set] at hk
  split at hk
  · cases hk
    exact hv
  · exact h k e v hk

theorem StoreTruthy.dispatch (method endpoint : String)
    (params : Option (List (String × String))) (cache_ttl : Option ℚ)
    (bypass_cache : Bool) (default_ttl : ℚ) {store : CacheStore} (now : ℚ)
    (net : NetOutcome) (request_id : String) (h : StoreTruthy store) :
    StoreTruthy (dispatchRequest method endpoint params cache_ttl bypass_cache
      default_ttl store now net request_id).2.1 := by
  unfold dispatchRequest
  cases net with
  | timeoutErr => exact h
  | clientErr msg => exact h
  | otherErr msg => exact h
  | httpResponse status parsed bodyText =>
    simp only
    split
    · next hc => exact StoreTruthy.set _ _ _ _ h hc.2.2.1
    · exact h

theorem StoreTruthy.makeRequestPreserves (method endpoint : String)
    (params : Option (List (String × String))) (cache_ttl : Option ℚ)
    (bypass_cache : Bool) (default_ttl : ℚ) {store : CacheStore} (now : ℚ)
    (net : NetOutcome) (request_id : String) (h : StoreTruthy store) :
    StoreTruthy (makeRequest method endpoint params cache_ttl bypass_cache
      default_ttl store now net request_id).2.1 := by
  unfold makeRequest
  split
  · split
    · next v store₁ heq =>
      have h₁ : StoreTruthy store₁ := by
        have := StoreTruthy.get
          (generateCacheKey endpoint params) now h
        rw [heq] at this
        exact this
      split
      · exact h₁
      · exact StoreTruthy.dispatch _ _ _ _ _ _ _ _ _ h₁
    · next store₁ heq =>
      have h₁ : StoreTruthy store₁ := by
        have := StoreTruthy.get
          (generateCacheKey endpoint params) now h
        rw [heq] at this
        exact this
      exact StoreTruthy.dispatch _ _ _ _ _ _ _ _ _ h₁
  · exact StoreTruthy.dispatch _ _ _ _ _ _ _ _ _ h

/-- C2: (a) `_make_request` preserves the invariant that every value in the
service cache is truthy (the only cache write is guarded by
`response_data.data`), so an entry is never falsy; (b) under that invariant,
a GET with `bypass_cache = False` whose canonical cache key holds an
unexpired entry returns immediately with `success = True`, `cached = True`
and the cached payload, without acquiring the rate limiter and without
dispatching any network request (and without touching the store). -/
theorem makeRequest_cache_hit (method endpoint : String)
    (params : Option (List (String × String))) (cache_ttl : Option ℚ)
    (bypass_cache : Bool) (default_ttl : ℚ) (store : CacheStore) (now : ℚ)
    (net : NetOutcome) (request_id : String) (exp : ℚ) (v : PyVal) :
    (StoreTruthy store →
      StoreTruthy (makeRequest method endpoint params cache_ttl bypass_cache
        default_ttl store now net request_id).2.1) ∧
    (StoreTruthy store →
      store (generateCacheKey endpoint params) = some (exp, v) →
      ¬ exp < now →
      makeRequest "GET" endpoint params cache_ttl false default_ttl store now
          net request_id =
        ({ success := true, data := v, cached := true,
           request_id := some request_id }, store,
         { acquired := false, dispatched := false })) := by
  refine ⟨fun h => StoreTruthy.makeRequestPreserves _ _ _ _ _ _ _ _ _ h,
    fun h hk hexp => ?_⟩
  have hget : CacheManager.get store (generateCacheKey endpoint params) now
      = (some v, store) := by
    unfold CacheManager.get
    rw [hk]
    dsimp only
    rw [if_neg hexp]
  have htr : v.truthy = true := h _ _ _ hk
  unfold makeRequest
  rw [if_pos ⟨rfl, rfl⟩, hget]
  simp only [htr, if_true]

/-- Witness for C2: a cache holding an unexpired truthy entry for
`/api/stock/AAPL/info` answers a GET from the cache, with no rate-limiter
acquisition and no dispatch. -/
theorem makeRequest_cache_hit_witness :
    makeRequest "GET" "/api/stock/AAPL/info" none none false 300
        (fun k => if k = "/api/stock/AAPL/info"
          then some (100, .pyDict [("ticker", "AAPL")]) else none)
        5 .timeoutErr "req_1" =
      ({ success := true, data := .pyDict [("ticker", "AAPL")], cached := true,
         request_id := some "req_1" },
       (fun k => if k = "/api/stock/AAPL/info"
          then some (100, .pyDict [("ticker", "AAPL")]) else none),
       { acquired := false, dispatched := false }) :=
  (makeRequest_cache_hit "GET" "/api/stock/AAPL/info" none none false 300
      (fun k => if k = "/api/stock/AAPL/info"
        then some (100, .pyDict [("ticker", "AAPL")]) else none)
      5 .timeoutErr "req_1" 100 (.pyDict [("ticker", "AAPL")])).2
    (by
      intro k e v hk
      simp only [] at hk
      by_cases hkey : k = "/api/stock/AAPL/info"
      · rw [if_pos hkey] at hk
        cases hk
        rfl
      · rw [if_neg hkey] at hk
        cases hk)
    (by rfl)
    (by norm_num)

theorem processResponse_cached (status : Nat) (parsed : Option PyVal)
    (bodyText request_id : String) :
    (processResponse status parsed bodyText request_id).cached = false := by
  unfold processResponse
  split_ifs <;> cases parsed <;> rfl

theorem dispatchRequest_effects (method endpoint : String)
    (params : Option (List (String × String))) (cache_ttl : Option ℚ)
    (bypass_cache : Bool) (default_ttl : ℚ) (store : CacheStore) (now : ℚ)
    (net : NetOutcome) (request_id : String) :
    (dispatchRequest method endpoint params cache_ttl bypass_cache default_ttl
        store now net request_id).2.2 =
      { acquired := true, dispatched := true } ∧
    (dispatchRequest method endpoint params cache_ttl bypass_cache default_ttl
        store now net request_id).1.cached = false := by
  cases net with
  | timeoutErr => exact ⟨rfl, rfl⟩
  | clientErr m => exact ⟨rfl, rfl⟩
  | otherErr m => exact ⟨rfl, rfl⟩
  | httpResponse s p b => exact ⟨rfl, processResponse_cached s p b request_id⟩

/-- If the cache yields no truthy value for the key, `_make_request` falls
through to the network path (on the store as mutated by the cache read). -/
theorem makeRequest_miss (endpoint : String)
    (params : Option (List (String × String))) (cache_ttl : Option ℚ)
    (default_ttl : ℚ) (store : CacheStore) (now : ℚ) (net : NetOutcome)
    (request_id : String)
    (h : ∀ u, (CacheManager.get store (generateCacheKey endpoint params) now).1
      = some u → u.truthy = false) :
    makeRequest "GET" endpoint params cache_ttl false default_ttl store now
        net request_id =
      dispatchRequest "GET" endpoint params cache_ttl false default_ttl
        (CacheManager.get store (generateCacheKey endpoint params) now).2
        now net request_id := by
  unfold makeRequest
  rw [if_pos ⟨rfl, rfl⟩]
  rcases hres : CacheManager.get store (generateCacheKey endpoint params) now
    with ⟨o, store₁⟩
  cases o with
  | none => rfl
  | some u =>
    dsimp only
    rw [if_neg]
    rw [h u (by rw [hres])]
    simp

theorem dispatchRequest_no_write (endpoint : String)
    (params : Option (List (String × String))) (cache_ttl : Option ℚ)
    (default_ttl : ℚ) (store : CacheStore) (now : ℚ)
    (bodyText request_id : String) (v : PyVal) (hv : v.truthy = false) :
    dispatchRequest "GET" endpoint params cache_ttl false default_ttl store
        now (.httpResponse 200 (some v) bodyText) request_id =
      (processResponse 200 (some v) bodyText request_id, store,
       { acquired := true, dispatched := true }) := by
  unfold dispatchRequest
  dsimp only
  rw [if_neg]
  intro hcond
  have hd := hcond.2.2.1
  rw [show (processResponse 200 (some v) bodyText request_id).data = v from rfl,
    hv] at hd
  cases hd

theorem cacheGet_eval (s : CacheStore) (key : String) (t : ℚ) :
    (s key = none → CacheManager.get s key t = (none, s)) ∧
    (∀ e w, s key = some (e, w) → e < t →
      CacheManager.get s key t = (none, fun k => if k = key then none else s k)) ∧
    (∀ e w, s key = some (e, w) → ¬ e < t →
      CacheManager.get s key t = (some w, s)) := by
  refine ⟨fun h => ?_, fun e w h hlt => ?_, fun e w h hlt => ?_⟩
  · unfold CacheManager.get
    rw [h]
  · unfold CacheManager.get
    rw [h]
    dsimp only
    rw [if_pos hlt]
  · unfold CacheManager.get
    rw [h]
    dsimp only
    rw [if_neg hlt]

theorem cacheGet_no_truthy_preserved (store : CacheStore) (key : String)
    (now now' : ℚ)
    (h : ∀ u, (CacheManager.get store key now).1 = some u → u.truthy = false) :
    ∀ u, (CacheManager.get (CacheManager.get store key now).2 key now').1
      = some u → u.truthy = false := by
  intro u hu
  rcases hsk : store key with _ | ⟨e, w⟩
  · rw [(cacheGet_eval store key now).1 hsk] at hu
    dsimp only at hu
    rw [(cacheGet_eval store key now').1 hsk] at hu
    cases hu
  · by_cases he : e < now
    · rw [(cacheGet_eval store key now).2.1 e w hsk he] at hu
      dsimp only at hu
      have hnone : (fun k => if k = key then none else store k) key
          = (none : Option (ℚ × PyVal)) := by simp
      rw [(cacheGet_eval _ key now').1 hnone] at hu
      cases hu
    · have hw : w.truthy = false := by
        refine h w ?_
        rw [(cacheGet_eval store key now).2.2 e w hsk he]
      rw [(cacheGet_eval store key now).2.2 e w hsk he] at hu
      dsimp only at hu
      by_cases he' : e < now'
      · rw [(cacheGet_eval store key now').2.1 e w hsk he'] at hu
        cases hu
      · rw [(cacheGet_eval store key now').2.2 e w hsk he'] at hu
        cases hu
        exact hw

/-- C10: a successful GET whose parsed payload is falsy (e.g. an empty
object) is never written to the cache (`response_data.data` guard), and a
falsy cached value is treated as a cache miss (`if cached_response:` guard);
consequently an identical repeated GET acquires the rate limiter and
dispatches to the network again instead of returning `cached = True`. -/
theorem makeRequest_falsy_payload (endpoint : String)
    (params : Option (List (String × String))) (cache_ttl : Option ℚ)
    (default_ttl : ℚ) (store : CacheStore) (now now' : ℚ) (net' : NetOutcome)
    (request_id rid₂ bodyText : String) (v : PyVal) (exp : ℚ) (w : PyVal) :
    (v.truthy = false →
      (∀ u, (CacheManager.get store (generateCacheKey endpoint params) now).1
        = some u → u.truthy = false) →
      (makeRequest "GET" endpoint params cache_ttl false default_ttl store now
          (.httpResponse 200 (some v) bodyText) request_id).1.success = true ∧
      (makeRequest "GET" endpoint params cache_ttl false default_ttl store now
          (.httpResponse 200 (some v) bodyText) request_id).2.1 =
        (CacheManager.get store (generateCacheKey endpoint params) now).2 ∧
      (makeRequest "GET" endpoint params cache_ttl false default_ttl store now
          (.httpResponse 200 (some v) bodyText) request_id).2.2 =
        { acquired := true, dispatched := true } ∧
      (makeRequest "GET" endpoint params cache_ttl false default_ttl
          (makeRequest "GET" endpoint params cache_ttl false default_ttl
            store now (.httpResponse 200 (some v) bodyText) request_id).2.1
          now' net' rid₂).2.2 = { acquired := true, dispatched := true } ∧
      (makeRequest "GET" endpoint params cache_ttl false default_ttl
          (makeRequest "GET" endpoint params cache_ttl false default_ttl
            store now (.httpResponse 200 (some v) bodyText) request_id).2.1
          now' net' rid₂).1.cached = false) ∧
    (store (generateCacheKey endpoint params) = some (exp, w) →
      w.truthy = false →
      (makeRequest "GET" endpoint params cache_ttl false default_ttl store now
          net' rid₂).2.2 = { acquired := true, dispatched := true }) := by
  constructor
  · intro hv hmiss
    have hm := makeRequest_miss endpoint params cache_ttl default_ttl store
      now (.httpResponse 200 (some v) bodyText) request_id hmiss
    rw [hm, dispatchRequest_no_write endpoint params cache_ttl default_ttl _
      now bodyText request_id v hv]
    have hmiss₂ := cacheGet_no_truthy_preserved store
      (generateCacheKey endpoint params) now now' hmiss
    have hm₂ := makeRequest_miss endpoint params cache_ttl default_ttl _
      now' net' rid₂ hmiss₂
    dsimp only
    rw [hm₂]
    exact ⟨rfl, rfl, rfl,
      (dispatchRequest_effects _ _ _ _ _ _ _ _ _ _).1,
      (dispatchRequest_effects _ _ _ _ _ _ _ _ _ _).2⟩
  · intro hk hw
    have hmiss : ∀ u,
        (CacheManager.get store (generateCacheKey endpoint params) now).1
          = some u → u.truthy = false := by
      intro u hu
      by_cases he : exp < now
      · rw [(cacheGet_eval store _ now).2.1 exp w hk he] at hu
        cases hu
      · rw [(cacheGet_eval store _ now).2.2 exp w hk he] at hu
        cases hu
        exact hw
    rw [makeRequest_miss endpoint params cache_ttl default_ttl store now net'
      rid₂ hmiss]
    exact (dispatchRequest_effects _ _ _ _ _ _ _ _ _ _).1

/-- Witness for C10: a GET of `/e` against an empty cache that receives a
200 response whose body parses to `{}` succeeds, writes nothing to the
cache, and dispatches; an identical repeated GET dispatches again (acquiring
the limiter) with `cached = false`. -/
theorem makeRequest_falsy_payload_witness :
    (makeRequest "GET" "/e" none none false 300 (fun _ => none) 0
        (.httpResponse 200 (some (.pyDict [])) "x") "r1").1.success = true ∧
    (makeRequest "GET" "/e" none none false 300 (fun _ => none) 0
        (.httpResponse 200 (some (.pyDict [])) "x") "r1").2.1 =
      (CacheManager.get (fun _ => none) (generateCacheKey "/e" none) 0).2 ∧
    (makeRequest "GET" "/e" none none false 300 (fun _ => none) 0
        (.httpResponse 200 (some (.pyDict [])) "x") "r1").2.2 =
      { acquired := true, dispatched := true } ∧
    (makeRequest "GET" "/e" none none false 300
        (makeRequest "GET" "/e" none none false 300 (fun _ => none) 0
          (.httpResponse 200 (some (.pyDict [])) "x") "r1").2.1
        1 (.httpResponse 200 (some (.pyDict [])) "x") "r2").2.2 =
      { acquired := true, dispatched := true } ∧
    (makeRequest "GET" "/e" none none false 300
        (makeRequest "GET" "/e" none none false 300 (fun _ => none) 0
          (.httpResponse 200 (some (.pyDict [])) "x") "r1").2.1
        1 (.httpResponse 200 (some (.pyDict [])) "x") "r2").1.cached = false :=
  (makeRequest_falsy_payload "/e" none none 300 (fun _ => none) 0 1
      (.httpResponse 200 (some (.pyDict [])) "x") "r1" "r2" "x"
      (.pyDict []) 0 .pyNone).1
    rfl
    (by
      intro u hu
      rw [(cacheGet_eval (fun _ => none) (generateCacheKey "/e" none) 0).1
        rfl] at hu
      cases hu)

theorem makeRequest_bypass (method endpoint : String)
    (params : Option (List (String × String))) (cache_ttl : Option ℚ)
    (default_ttl : ℚ) (store : CacheStore) (now : ℚ) (net : NetOutcome)
    (request_id : String) :
    makeRequest method endpoint params cache_ttl true default_ttl store now
        net request_id =
      dispatchRequest method endpoint params cache_ttl true default_ttl store
        now net request_id := by
  unfold makeRequest
  rw [if_neg]
  rintro ⟨-, hc⟩
  cases hc

/-- C3: classification of every dispatched request (`bypass_cache = True`
forces the dispatch path): HTTP 200 with a parseable JSON body → success with
the payload; HTTP 200 with an unparseable body → `DATA_ERROR`; HTTP 401 →
`AUTHENTICATION_ERROR`; HTTP 429 → `RATE_LIMIT_ERROR`; a transport timeout →
`TIMEOUT_ERROR`; a transport failure → `NETWORK_ERROR`; any other unexpected
failure → `UNKNOWN_ERROR`; any other status (in particular every other
non-2xx) → `DATA_ERROR` with a message carrying the status code and body
text; `success = False` in every error case. -/
theorem makeRequest_classification (method endpoint : String)
    (params : Option (List (String × String))) (cache_ttl : Option ℚ)
    (default_ttl : ℚ) (store : CacheStore) (now : ℚ)
    (request_id msg bodyText : String) (v : PyVal) (parsed : Option PyVal)
    (status : Nat) :
    (makeRequest method endpoint params cache_ttl true default_ttl store now
        (.httpResponse 200 (some v) bodyText) request_id).1 =
      { success := true, data := v, status_code := some 200,
        request_id := some request_id } ∧
    (makeRequest method endpoint params cache_ttl true default_ttl store now
        (.httpResponse 200 none bodyText) request_id).1 =
      { success := false, error := some "Invalid JSON response",
        error_type := some .DATA_ERROR, status_code := some 200,
        request_id := some request_id } ∧
    (makeRequest method endpoint params cache_ttl true default_ttl store now
        (.httpResponse 401 parsed bodyText) request_id).1 =
      { success := false,
        error := some "Authentication failed - check API token",
        error_type := some .AUTHENTICATION_ERROR, status_code := some 401,
        request_id := some request_id } ∧
    (makeRequest method endpoint params cache_ttl true default_ttl store now
        (.httpResponse 429 parsed bodyText) request_id).1 =
      { success := false, error := some "Rate limit exceeded",
        error_type := some .RATE_LIMIT_ERROR, status_code := some 429,
        request_id := some request_id } ∧
    (makeRequest method endpoint params cache_ttl true default_ttl store now
        .timeoutErr request_id).1 =
      { success := false, error := some "Request timeout",
        error_type := some .TIMEOUT_ERROR, request_id := some request_id } ∧
    (makeRequest method endpoint params cache_ttl true default_ttl store now
        (.clientErr msg) request_id).1 =
      { success := false, error := some ("Network error: " ++ msg),
        error_type := some .NETWORK_ERROR, request_id := some request_id } ∧
    (makeRequest method endpoint params cache_ttl true default_ttl store now
        (.otherErr msg) request_id).1 =
      { success := false, error := some ("Unexpected error: " ++ msg),
        error_type := some .UNKNOWN_ERROR, request_id := some request_id } ∧
    (status ≠ 200 → status ≠ 401 → status ≠ 429 →
      (makeRequest method endpoint params cache_ttl true default_ttl store now
          (.httpResponse status parsed bodyText) request_id).1 =
        { success := false,
          error := some ("API error " ++ toString status ++ ": " ++ bodyText),
          error_type := some .DATA_ERROR, status_code := some status,
          request_id := some request_id }) := by
  refine ⟨?_, ?_, ?_, ?_, ?_, ?_, ?_, fun h200 h401 h429 => ?_⟩ <;>
    rw [makeRequest_bypass]
  · rfl
  · rfl
  · rfl
  · rfl
  · rfl
  · rfl
  · rfl
  · have hd : (dispatchRequest method endpoint params cache_ttl true
        default_ttl store now (.httpResponse status parsed bodyText)
        request_id).1 = processResponse status parsed bodyText request_id :=
      rfl
    rw [hd]
    unfold processResponse
    rw [if_neg h200, if_neg h401, if_neg h429]

/-- Witness for C3 at status 404: a dispatched request answered `404` with
body `"not found"` is classified `DATA_ERROR` with the status code and body
text in the message. -/
theorem makeRequest_classification_witness :
    (makeRequest "GET" "/e" none none true 300 (fun _ => none) 0
        (.httpResponse 404 none "not found") "r1").1 =
      { success := false, error := some ("API error " ++ toString 404 ++
          ": " ++ "not found"),
        error_type := some .DATA_ERROR, status_code := some 404,
        request_id := some "r1" } :=
  (makeRequest_classification "GET" "/e" none none 300 (fun _ => none) 0
      "r1" "m" "not found" .pyNone none 404).2.2.2.2.2.2.2
    (by decide) (by decide) (by decide)

/-- C4 counterexample: an HTTP 200 whose JSON body is `null` parses to
Python `None`; `_make_request` then returns `success = True` with an absent
payload (`data = None`) and no error kind, so `success == true` does not
imply the payload is present. -/
theorem apiResponse_invariant_counterexample :
    (makeRequest "GET" "/e" none none false 300 (fun _ => none) 0
        (.httpResponse 200 (some .pyNone) "null") "r1").1.success = true ∧
    (makeRequest "GET" "/e" none none false 300 (fun _ => none) 0
        (.httpResponse 200 (some .pyNone) "null") "r1").1.data = .pyNone ∧
    (makeRequest "GET" "/e" none none false 300 (fun _ => none) 0
        (.httpResponse 200 (some .pyNone) "null") "r1").1.error_type
      = none := by
  refine ⟨?_, ?_, ?_⟩ <;> rfl

/-- The part of the claimed `APIResult` invariant that the code does
satisfy: `success` iff no `errorKind`, and a failure never carries a
payload. -/
def respInvariant (r : APIResponse) : Prop :=
  (r.success = true ↔ r.error_type = none) ∧
  (r.success = false → r.data = .pyNone)

theorem respInvariant_process (status : Nat) (parsed : Option PyVal)
    (bodyText request_id : String) :
    respInvariant (processResponse status parsed bodyText request_id) := by
  unfold processResponse
  split_ifs <;> cases parsed <;> simp [respInvariant]

theorem respInvariant_dispatch (method endpoint : String)
    (params : Option (List (String × String))) (cache_ttl : Option ℚ)
    (bypass_cache : Bool) (default_ttl : ℚ) (store : CacheStore) (now : ℚ)
    (net : NetOutcome) (request_id : String) :
    respInvariant (dispatchRequest method endpoint params cache_ttl
      bypass_cache default_ttl store now net request_id).1 := by
  cases net with
  | timeoutErr => simp [dispatchRequest, respInvariant]
  | clientErr m => simp [dispatchRequest, respInvariant]
  | otherErr m => simp [dispatchRequest, respInvariant]
  | httpResponse s p b =>
    have hd : (dispatchRequest method endpoint params cache_ttl bypass_cache
        default_ttl store now (.httpResponse s p b) request_id).1 =
        processResponse s p b request_id := rfl
    rw [hd]
    exact respInvariant_process s p b request_id

/-- C4 amended: every `APIResponse` returned by `_make_request` satisfies
`success == true` iff `errorKind` is absent, and `success == false` implies
the payload is absent; `success == true` guarantees a present payload only
when the 200 body did not parse to `null` (see the counterexample).  The
per-ticker responses of `get_multiple_stock_data` satisfy the same
invariant whenever the per-ticker tasks do (the synthesized
`UNKNOWN_ERROR` responses for raised tasks satisfy it by construction). -/
theorem apiResponse_invariant (method endpoint : String)
    (params : Option (List (String × String))) (cache_ttl : Option ℚ)
    (bypass_cache : Bool) (default_ttl : ℚ) (store : CacheStore) (now : ℚ)
    (net : NetOutcome) (request_id : String) (tickers : List String)
    (run : String → TaskOutcome) :
    respInvariant (makeRequest method endpoint params cache_ttl bypass_cache
      default_ttl store now net request_id).1 ∧
    ((∀ t r', run t = .finished r' → respInvariant r') →
      ∀ p ∈ getMultipleStockData tickers run, respInvariant p.2) := by
  constructor
  · unfold makeRequest
    split
    · split
      · split
        · simp [respInvariant]
        · exact respInvariant_dispatch _ _ _ _ _ _ _ _ _ _
      · exact respInvariant_dispatch _ _ _ _ _ _ _ _ _ _
    · exact respInvariant_dispatch _ _ _ _ _ _ _ _ _ _
  · intro hrun p hp
    unfold getMultipleStockData at hp
    rw [List.mem_map] at hp
    obtain ⟨t, ht, hpt⟩ := hp
    cases hr : run t with
    | finished r =>
      rw [hr] at hpt
      subst hpt
      exact hrun t r hr
    | raised msg =>
      rw [hr] at hpt
      subst hpt
      simp [respInvariant]

/-- Witness for C4 amended: a timed-out request satisfies the invariant, and
so does the response synthesized for a ticker whose task raised. -/
theorem apiResponse_invariant_witness :
    respInvariant (makeRequest "GET" "/e" none none false 300 (fun _ => none)
      0 .timeoutErr "r1").1 ∧
    respInvariant ({ success := false, error := some "boom",
                     error_type := some .UNKNOWN_ERROR } : APIResponse) :=
  ⟨(apiResponse_invariant "GET" "/e" none none false 300 (fun _ => none) 0
      .timeoutErr "r1" [] (fun _ => .raised "boom")).1,
   (apiResponse_invariant "GET" "/e" none none false 300 (fun _ => none) 0
      .timeoutErr "r1" ["A"] (fun _ => .raised "boom")).2
     (fun t r' h => by cases h)
     ("A", { success := false, error := some "boom",
               error_type := some .UNKNOWN_ERROR })
     (by simp [getMultipleStockData])⟩

/-- C6: `analyze_ticker` returns `False` at once (starting no new work) when
the upper-cased ticker is already in `_active_analyses`; otherwise it
registers the ticker with a `RUNNING` progress record, after which a second
concurrent start for the same ticker is rejected; and the registry entry is
removed unconditionally whatever the outcome of the run — completion,
cancellation or exception — by the `finally` block, so at most one live
entry exists per ticker. -/
theorem analyzeTicker_registry (st st' : ControllerState) (ticker : String)
    (now now' : ℚ) (o : RunOutcome) :
    (st.active_analyses (pyUpper ticker) = true →
      analyzeTickerStart st ticker now = none) ∧
    (analyzeTickerStart st ticker now = some st' →
      st'.active_analyses (pyUpper ticker) = true ∧
      (st'.analysis_progress (pyUpper ticker)).map (fun p => p.status)
        = some .RUNNING ∧
      analyzeTickerStart st' ticker now' = none) ∧
    (analyzeTickerFinish st ticker o).2.active_analyses (pyUpper ticker)
      = false := by
  refine ⟨fun h => ?_, fun h => ?_, ?_⟩
  · unfold analyzeTickerStart
    rw [if_pos h]
  · unfold analyzeTickerStart at h
    by_cases hc : st.active_analyses (pyUpper ticker) = true
    · rw [if_pos hc] at h
      cases h
    · rw [if_neg hc] at h
      cases h
      refine ⟨by simp, by simp [initialProgress], ?_⟩
      unfold analyzeTickerStart
      rw [if_pos (by simp)]
  · unfold analyzeTickerFinish
    simp

/-- Witness for C6: starting `"aapl"` while `"AAPL"` is registered is
rejected; after a successful start a second start is rejected; finishing a
cancelled run clears the registry. -/
theorem analyzeTicker_registry_witness :
    analyzeTickerStart
      { active_analyses := fun k => k == "AAPL",
        analysis_progress := fun _ => none } "aapl" 0 = none ∧
    analyzeTickerStart
      { active_analyses := fun k => if k = "AAPL" then true else false,
        analysis_progress := fun k =>
          if k = "AAPL" then some (initialProgress 0) else none }
      "aapl" 1 = none ∧
    (analyzeTickerFinish
      { active_analyses := fun k => k == "AAPL",
        analysis_progress := fun _ => none } "aapl" .cancelled).2.active_analyses
      "AAPL" = false :=
  ⟨(analyzeTicker_registry
      { active_analyses := fun k => k == "AAPL",
        analysis_progress := fun _ => none }
      { active_analyses := fun k => k == "AAPL",
        analysis_progress := fun _ => none } "aapl" 0 0 .cancelled).1 rfl,
   ((analyzeTicker_registry
      { active_analyses := fun _ => false, analysis_progress := fun _ => none }
      { active_analyses := fun k => if k = "AAPL" then true else false,
        analysis_progress := fun k =>
          if k = "AAPL" then some (initialProgress 0) else none }
      "aapl" 0 1 .cancelled).2.1 rfl).2.2,
   (analyzeTicker_registry
      { active_analyses := fun k => k == "AAPL",
        analysis_progress := fun _ => none }
      { active_analyses := fun k => k == "AAPL",
        analysis_progress := fun _ => none } "aapl" 0 0 .cancelled).2.2⟩

/-- C7 counterexample: in a batch of three tickers where `"MSFT"`'s task
raises an unexpected exception, the aggregation loop logs and `continue`s,
so the result map records only the other two tickers — `"MSFT"`'s outcome is
not recorded at all, contradicting "every key's outcome is recorded". -/
theorem batchAnalyze_counterexample :
    batchAnalyzeWatchlist ["AAPL", "MSFT", "NVDA"]
        (fun t => if t = "MSFT" then none else some true) =
      [("AAPL", true), ("NVDA", true)] ∧
    (batchAnalyzeWatchlist ["AAPL", "MSFT", "NVDA"]
        (fun t => if t = "MSFT" then none else some true)).lookup "MSFT"
      = none := by
  exact ⟨rfl, rfl⟩

/-- C7 amended: `batch_analyze_watchlist` returns a per-key map containing
exactly the keys whose task returned a result: `(k, b)` is recorded iff `k`
was in the batch and its task returned `b`; a key whose task raised is
caught (never aborting the batch or the other keys) but is omitted from the
map rather than recorded as a failure. -/
theorem batchAnalyze_membership (tickers : List String)
    (run : String → Option Bool) (k : String) (b : Bool) :
    (k, b) ∈ batchAnalyzeWatchlist tickers run ↔
      k ∈ tickers ∧ run k = some b := by
  unfold batchAnalyzeWatchlist
  rw [List.mem_filterMap]
  constructor
  · rintro ⟨t, ht, hmap⟩
    cases hr : run t with
    | none =>
      rw [hr] at hmap
      cases hmap
    | some b' =>
      rw [hr] at hmap
      simp only [Option.map_some'] at hmap
      cases hmap
      exact ⟨ht, hr⟩
  · rintro ⟨hk, hr⟩
    refine ⟨k, hk, ?_⟩
    rw [hr]
    rfl

/-- C8: a non-success mandatory stock-info fetch aborts the pipeline with
`ApplicationError("Failed to get stock info: ...")`, which the controller
turns into an `ERROR` progress record carrying that human-readable message;
a non-success optional fetch (earnings calendar, options flow, insider
trades) never aborts: the pipeline continues and passes that dataset to the
analysis step as absent (`None`). -/
theorem pipeline_mandatory_optional (ticker : String)
    (stock earnings options insider : APIResponse) (st : ControllerState)
    (p : AnalysisProgress) (msg : String) :
    (stock.success = false →
      performTickerAnalysis ticker stock earnings options insider =
        .error ("Failed to get stock info: " ++ formatOptStr stock.error)) ∧
    (stock.success = true →
      performTickerAnalysis ticker stock earnings options insider =
        .ok { ticker := ticker
              stock_info := stock.data
              earnings_data :=
                if earnings.success then earnings.data else .pyNone
              options_flow :=
                if options.success then options.data else .pyNone
              insider_trades :=
                if insider.success then insider.data else .pyNone }) ∧
    (st.analysis_progress (pyUpper ticker) = some p →
      (analyzeTickerFinish st ticker (.errored msg)).2.analysis_progress
          (pyUpper ticker) =
        some { p with status := .ERROR, error_message := some msg,
                      current_step := "Analysis failed" }) := by
  refine ⟨fun h => ?_, fun h => ?_, fun h => ?_⟩
  · unfold performTickerAnalysis
    rw [if_pos h]
  · unfold performTickerAnalysis
    rw [if_neg (by rw [h]; simp)]
    rw [h]
    simp
  · unfold analyzeTickerFinish
    simp [h]

/-- Witness for C8: a failing mandatory fetch (`error = "HTTP 401"`) aborts
with the formatted message; with a successful mandatory fetch and a failed
earnings fetch, the pipeline proceeds and hands the analysis step an absent
earnings dataset; the `ERROR` progress record carries the message. -/
theorem pipeline_mandatory_optional_witness :
    performTickerAnalysis "AAPL" { success := false, error := some "HTTP 401" }
        { success := true, data := .pyDict [("e", "1")] }
        { success := true, data := .pyDict [("o", "1")] }
        { success := true, data := .pyDict [("i", "1")] } =
      .error "Failed to get stock info: HTTP 401" ∧
    performTickerAnalysis "AAPL"
        { success := true, data := .pyDict [("s", "1")] }
        { success := false, error := some "timeout" }
        { success := true, data := .pyDict [("o", "1")] }
        { success := true, data := .pyDict [("i", "1")] } =
      .ok { ticker := "AAPL", stock_info := .pyDict [("s", "1")],
            earnings_data := .pyNone, options_flow := .pyDict [("o", "1")],
            insider_trades := .pyDict [("i", "1")] } ∧
    (analyzeTickerFinish
      { active_analyses := fun k => k == "AAPL",
        analysis_progress := fun k =>
          if k = "AAPL" then some (initialProgress 0) else none }
      "AAPL" (.errored "Failed to get stock info: HTTP 401")).2.analysis_progress
        "AAPL" =
      some { (initialProgress 0) with
             status := .ERROR,
             error_message := some "Failed to get stock info: HTTP 401",
             current_step := "Analysis failed" } := by
  refine ⟨?_, ?_, ?_⟩
  · exact (pipeline_mandatory_optional "AAPL"
      { success := false, error := some "HTTP 401" }
      { success := true, data := .pyDict [("e", "1")] }
      { success := true, data := .pyDict [("o", "1")] }
      { success := true, data := .pyDict [("i", "1")] }
      { active_analyses := fun _ => false, analysis_progress := fun _ => none }
      (initialProgress 0) "m").1 rfl
  · exact (pipeline_mandatory_optional "AAPL"
      { success := true, data := .pyDict [("s", "1")] }
      { success := false, error := some "timeout" }
      { success := true, data := .pyDict [("o", "1")] }
      { success := true, data := .pyDict [("i", "1")] }
      { active_analyses := fun _ => false, analysis_progress := fun _ => none }
      (initialProgress 0) "m").2.1 rfl
  · exact (pipeline_mandatory_optional "AAPL"
      { success := false, error := some "HTTP 401" }
      { success := true, data := .pyDict [("e", "1")] }
      { success := true, data := .pyDict [("o", "1")] }
      { success := true, data := .pyDict [("i", "1")] }
      { active_analyses := fun k => k == "AAPL",
        analysis_progress := fun k =>
          if k = "AAPL" then some (initialProgress 0) else none }
      (initialProgress 0) "Failed to get stock info: HTTP 401").2.2 rfl

/-- C9 counterexample: the record emitted at the start of step 1 reports
`completed_steps = 1` of `total_steps = 6` with the hard-coded
`progress_percent = 16.7`, but `1/6*100 = 50/3 ≠ 167/10` — the percentage
is not exactly `completedSteps/totalSteps*100` (and the counter is bumped
when the step begins, not on its completion). -/
theorem progress_percent_counterexample :
    ((analyzeTickerEmissions 0).get? 1).map
        (fun r => (r.completed_steps, r.total_steps, r.progress_percent)) =
      some (1, 6, 167/10) ∧
    (167 / 10 : ℚ) ≠ (1 : ℚ) / 6 * 100 := by
  constructor
  · rfl
  · norm_num

/-- C9 amended: every progress record emitted during a successful
`analyze_ticker` run has `total_steps = 6` and a hard-coded one-decimal
`progress_percent` within `1/20` of `completedSteps/totalSteps*100`
(`0.0, 16.7, 33.3, 50.0, 66.7, 83.3, 100.0`); the `completed_steps`
sequence over the run is `[0, 1, 2, 3, 4, 5, 6, 6]`, the counter being set
to `i` when step `i` begins (so when a record reports `completed_steps = i`,
steps `1..i-1` have completed and step `i` is starting). -/
theorem progress_percent_approx (now : ℚ) :
    (analyzeTickerEmissions now).map (fun r => r.completed_steps) =
      [0, 1, 2, 3, 4, 5, 6, 6] ∧
    ∀ r ∈ analyzeTickerEmissions now, r.total_steps = 6 ∧
      |r.progress_percent -
        (r.completed_steps : ℚ) / (r.total_steps : ℚ) * 100| ≤ 1 / 20 := by
  refine ⟨rfl, fun r hr => ?_⟩
  simp only [analyzeTickerEmissions, pipelineEmissions, initialProgress,
    List.mem_cons, List.mem_append, List.mem_singleton, List.cons_append,
    List.nil_append, List.not_mem_nil, or_false] at hr
  rcases hr with rfl | rfl | rfl | rfl | rfl | rfl | rfl | rfl <;>
    refine ⟨rfl, ?_⟩ <;> rw [abs_le] <;> constructor <;> norm_num

/-- Witness for C9 amended at the initial record of a run started at
time 0. -/
theorem progress_percent_approx_witness :
    (initialProgress 0).total_steps = 6 ∧
    |(initialProgress 0).progress_percent -
      ((initialProgress 0).completed_steps : ℚ) /
        ((initialProgress 0).total_steps : ℚ) * 100| ≤ 1 / 20 :=
  (progress_percent_approx 0).2 (initialProgress 0)
    (by simp [analyzeTickerEmissions])
